import Mathlib

/-!
Verification development for the `talks` repository (files `solid.py` and
`solid/talk.py`).  The repository is a collection of annotated Python class
definitions illustrating the SOLID principles.

The development has three layers:

* a syntactic model: a small Python AST (`PyExp`, `PyStmt`, `PyDef`,
  `PyClass`, `PyItem`, `Snippet`) into which every class, method and
  module-level function of the two source files is transcribed, snippet by
  snippet, in source order.  A method whose source text is not valid Python
  (it cannot be produced by the Python parser) carries `body = Option.none`.

* a token-level model of the handful of Python statement-line grammar rules
  needed to decide whether the `ReportGenerator.print` problem snippet
  parses (it does not: `else ink_type == 'COLOR':` violates the rule that
  the `else` keyword of an `if` statement is followed directly by `:`).

* a semantic model: Python objects as association lists of attributes
  (`Obj`), Python values (`PyVal`) with Python truthiness and `==`/`+`/`-`/`*`
  semantics on the ground types the snippets use, and a direct state-passing
  translation of each executable method the claims are about.  A raised
  exception is modelled as `some msg : Option String`.
-/

set_option maxRecDepth 4096

namespace Talks

/-- Python expressions, as used by the snippets of the two source files.
`attr e f` is `e.f`; `call0`/`call1`/`call2` are calls with zero, one and
two positional arguments (no call in the repository has more than two);
`dict2` is a two-entry dict display with string keys; `gen e v src` is the
generator expression `e for v in src`. -/
inductive PyExp where
  | name (n : String)
  | strLit (s : String)
  | intLit (n : Int)
  | noneLit
  | boolLit (b : Bool)
  | attr (recv : PyExp) (f : String)
  | call0 (f : PyExp)
  | call1 (f : PyExp) (arg : PyExp)
  | call2 (f : PyExp) (a1 a2 : PyExp)
  | add (a b : PyExp)
  | sub (a b : PyExp)
  | mul (a b : PyExp)
  | eqTest (a b : PyExp)
  | dict2 (k1 : String) (v1 : PyExp) (k2 : String) (v2 : PyExp)
  | gen (elem : PyExp) (v : String) (src : PyExp)
  deriving DecidableEq, Repr

/-- Python statements.  Multi-statement suites are right-nested `seq`s;
`ifThen` is an `if` without `else`, `ifThenElse c t (ifThen c2 t2)` renders
`if c: t elif c2: t2`; `raiseExc cls msg` is `raise cls(msg)`;
`withAs ctx v body` is `with ctx as v: body`; `assignSelf f e` is
`self.f = e` and `assignLocal x e` is `x = e`. -/
inductive PyStmt where
  | pass
  | ret (e : PyExp)
  | assignSelf (f : String) (e : PyExp)
  | assignLocal (x : String) (e : PyExp)
  | exprStmt (e : PyExp)
  | seq (s1 s2 : PyStmt)
  | ifThen (c : PyExp) (thn : PyStmt)
  | ifThenElse (c : PyExp) (thn els : PyStmt)
  | raiseExc (cls msg : String)
  | withAs (ctx : PyExp) (v : String) (body : PyStmt)
  | forIn (v : String) (src : PyExp) (body : PyStmt)
  deriving DecidableEq, Repr

/-- A `def`: name, parameter list (including `self` for methods) and body.
`body = Option.none` records that the method's source text does not parse
as Python. -/
structure PyDef where
  name : String
  params : List String
  body : Option PyStmt
  deriving DecidableEq, Repr

/-- A `class` definition: name, base-class list, class-level attribute
assignments (in source order) and methods (in source order). -/
structure PyClass where
  name : String
  bases : List String
  attrs : List (String × PyExp)
  methods : List PyDef
  deriving DecidableEq, Repr

/-- A module-level item: a class definition, a module-level function, or
the statement `from abc import ABC`. -/
inductive PyItem where
  | classDef (c : PyClass)
  | funcDef (d : PyDef)
  | importAbc
  deriving DecidableEq, Repr

/-- One problem/solution snippet of a source file: the label identifies the
principle, the problem/solution number, and the items are the definitions
the snippet consists of, in source order. -/
structure Snippet where
  label : String
  items : List PyItem
  deriving DecidableEq, Repr

/-- True exactly for the atomic expressions (a bare name or a literal). -/
def atomExp : PyExp → Bool
  | .name _ => true
  | .strLit _ => true
  | .intLit _ => true
  | .noneLit => true
  | .boolLit _ => true
  | _ => false

/-- True exactly for arithmetic expressions over the object's own fields:
`self.f` reads, integer literals, and `+`, `-`, `*` over those. -/
def arithExp : PyExp → Bool
  | .attr (.name s) _ => s == "self"
  | .intLit _ => true
  | .add a b => arithExp a && arithExp b
  | .sub a b => arithExp a && arithExp b
  | .mul a b => arithExp a && arithExp b
  | _ => false

/-- The body shape asserted by the spec for every method: a no-op (`pass`),
a single `return` of an arithmetic expression over the object's fields, or
a single assignment of an atomic expression to a field of `self`.
A body that does not parse (`Option.none`) is not of any of these shapes. -/
def trivialBody : Option PyStmt → Bool
  | some .pass => true
  | some (.ret e) => arithExp e
  | some (.assignSelf _ e) => atomExp e
  | _ => false

/-- Shorthand for the expression `self.f`. -/
def selfA (f : String) : PyExp := PyExp.attr (PyExp.name "self") f

/-- Shorthand for the zero-argument method call `self.m()`. -/
def selfCall0 (m : String) : PyExp := PyExp.call0 (selfA m)

/-- Shorthand for the one-argument method call `self.m(arg)`. -/
def selfCall1 (m : String) (arg : PyExp) : PyExp := PyExp.call1 (selfA m) arg

/-- True when the statement contains no `for` loop. -/
def loopFree : PyStmt → Bool
  | .seq a b => loopFree a && loopFree b
  | .ifThen _ t => loopFree t
  | .ifThenElse _ t e => loopFree t && loopFree e
  | .withAs _ _ b => loopFree b
  | .forIn _ _ _ => false
  | _ => true

/-! Transcription of `solid.py`, snippet by snippet, in source order.
A `PyDef` is written `⟨name, params, body⟩` and a `PyClass` is written
`⟨name, bases, class-level attrs, methods⟩`. -/

/-- solid.py, SRP problem 1: class `Employee` (lines 30-41). -/
def solid_SRP_P1 : Snippet :=
  ⟨"SRP-P1", [
    .classDef ⟨"Employee", ["object"], [], [
      ⟨"calculate_pay", ["self"], some (.ret (selfCall0 "calculate"))⟩,
      ⟨"report_hours", ["self", "hours"],
        some (.ret (.mul (selfCall0 "calculate") (.name "hours")))⟩,
      ⟨"save", ["self"], some .pass⟩,
      ⟨"calculate", ["self"], some .pass⟩]⟩]⟩

/-- solid.py, SRP solution 1: `PaymentCalculator`, `Reporter`,
`EmployeeRepository` (lines 45-55). -/
def solid_SRP_S1 : Snippet :=
  ⟨"SRP-S1", [
    .classDef ⟨"PaymentCalculator", ["object"], [], [
      ⟨"calculate_pay", ["self", "employee"],
        some (.ret (selfCall1 "calculate" (.name "employee")))⟩]⟩,
    .classDef ⟨"Reporter", ["object"], [], [
      ⟨"report_hours", ["self", "employee"],
        some (.ret (selfCall1 "calculate" (.name "employee")))⟩]⟩,
    .classDef ⟨"EmployeeRepository", ["object"], [], [
      ⟨"save", ["self", "employee"], some .pass⟩]⟩]⟩

/-- The body of `Operation.__init__` (`self.x = x` then `self.y = y`). -/
def operationInitBody : PyStmt :=
  .seq (.assignSelf "x" (.name "x")) (.assignSelf "y" (.name "y"))

/-- solid.py, OCP problem 1: `Operation`, `Addition`, `Subtraction` and the
`isinstance`-dispatching `BasicCalculator` (lines 62-78).  Note that the
base class `Calculator` is an undefined name in both files. -/
def solid_OCP_P1 : Snippet :=
  ⟨"OCP-P1", [
    .classDef ⟨"Operation", ["object"], [], [
      ⟨"__init__", ["self", "x", "y"], some operationInitBody⟩]⟩,
    .classDef ⟨"Addition", ["Operation"], [], []⟩,
    .classDef ⟨"Subtraction", ["Operation"], [], []⟩,
    .classDef ⟨"BasicCalculator", ["Calculator"], [], [
      ⟨"calculate", ["self", "operation"],
        some (.ifThenElse
          (.call2 (.name "isinstance") (.name "operation") (.name "Addition"))
          (.ret (.add (.attr (.name "operation") "x") (.attr (.name "operation") "y")))
          (.ifThen
            (.call2 (.name "isinstance") (.name "operation") (.name "Subtraction"))
            (.ret (.sub (.attr (.name "operation") "x") (.attr (.name "operation") "y")))))⟩]⟩]⟩

/-- solid.py, OCP solution 1: the operations carry `peform_operation` [sic]
and `BasicCalculator` delegates to `operation.perform_operation()`
(lines 82-97). -/
def solid_OCP_S1 : Snippet :=
  ⟨"OCP-S1", [
    .classDef ⟨"Operation", ["object"], [], [
      ⟨"__init__", ["self", "x", "y"], some operationInitBody⟩]⟩,
    .classDef ⟨"Addition", ["Operation"], [], [
      ⟨"peform_operation", ["self"],
        some (.ret (.add (selfA "x") (selfA "y")))⟩]⟩,
    .classDef ⟨"Subtraction", ["Operation"], [], [
      ⟨"peform_operation", ["self"],
        some (.ret (.sub (selfA "x") (selfA "y")))⟩]⟩,
    .classDef ⟨"BasicCalculator", ["Calculator"], [], [
      ⟨"calculate", ["self", "operation"],
        some (.ret (.call0 (.attr (.name "operation") "perform_operation")))⟩]⟩]⟩

/-- The three printer classes shared by the OCP problem-2 and solution-2
snippets of both files (`Printer`, `ColorPrinter`, `BWPrinter`). -/
def printerClasses : List PyItem :=
  [ .classDef ⟨"Printer", ["object"], [], [
      ⟨"print", ["self", "filename"], some .pass⟩]⟩,
    .classDef ⟨"ColorPrinter", ["Printer"], [], [
      ⟨"print", ["self", "filename"],
        some (.exprStmt (.call1 (.attr (.name "HPLASER") "print_file") (.name "filename")))⟩]⟩,
    .classDef ⟨"BWPrinter", ["Printer"], [], [
      ⟨"print", ["self", "filename"],
        some (.exprStmt (.call1 (.attr (.name "HPINKJET") "print_file") (.name "filename")))⟩]⟩]

/-- solid.py, OCP problem 2 (lines 101-120): the `ReportGenerator.print`
method text contains `else ink_type == 'COLOR':`, which the Python parser
rejects, so its body is recorded as not parsing (`Option.none`). -/
def solid_OCP_P2 : Snippet :=
  ⟨"OCP-P2", printerClasses ++ [
    .classDef ⟨"ReportGenerator", ["object"], [], [
      ⟨"print", ["self", "filename", "ink_type"], Option.none⟩]⟩]⟩

/-- solid.py, OCP solution 2 (lines 124-141): `ReportGenerator` stores a
printer and delegates; in this file `print` still takes an `ink_type`
parameter. -/
def solid_OCP_S2 : Snippet :=
  ⟨"OCP-S2", printerClasses ++ [
    .classDef ⟨"ReportGenerator", ["object"], [], [
      ⟨"__init__", ["self", "printer"],
        some (.assignSelf "printer" (.name "printer"))⟩,
      ⟨"print", ["self", "filename", "ink_type"],
        some (.exprStmt (.call1 (.attr (selfA "printer") "print_file") (.name "filename")))⟩]⟩]⟩

/-- solid.py, LSP problem 1 (lines 157-165): empty `Rectangle`/`Square` and
a `ShapeCalculator` returning `len(shapes) * shapes.x * 2`. -/
def solid_LSP_P1 : Snippet :=
  ⟨"LSP-P1", [
    .classDef ⟨"Rectangle", ["object"], [], []⟩,
    .classDef ⟨"Square", ["Rectangle"], [], []⟩,
    .classDef ⟨"ShapeCalculator", ["object"], [], [
      ⟨"calculate_perimeter", ["self", "shapes"],
        some (.ret (.mul
          (.mul (.call1 (.name "len") (.name "shapes")) (.attr (.name "shapes") "x"))
          (.intLit 2)))⟩]⟩]⟩

/-- solid.py, LSP solution 1 (lines 170-182): `Shape.get_perimeter` returns
`self.x * 2 + self.y * 2` and `ShapeCalculator` sums over the shapes. -/
def solid_LSP_S1 : Snippet :=
  ⟨"LSP-S1", [
    .classDef ⟨"Shape", ["object"], [], [
      ⟨"get_perimeter", ["self"],
        some (.ret (.add (.mul (selfA "x") (.intLit 2)) (.mul (selfA "y") (.intLit 2))))⟩]⟩,
    .classDef ⟨"Rectangle", ["Shape"], [], []⟩,
    .classDef ⟨"Square", ["object"], [], []⟩,
    .classDef ⟨"ShapeCalculator", ["object"], [], [
      ⟨"calculate_perimeter", ["self", "shapes"],
        some (.ret (.call1 (.name "sum")
          (.gen (.call0 (.attr (.name "shape") "get_perimeter")) "shape" (.name "shapes"))))⟩]⟩]⟩

/-- solid.py, LSP problem 2 (lines 186-198): `Task.close` sets
`self.status = 'CLOSED'`; the `ProjectTask.close` text
(`if (self.status == 'STARTED')` with no colon) does not parse. -/
def solid_LSP_P2 : Snippet :=
  ⟨"LSP-P2", [
    .classDef ⟨"Task", ["object"], [("status", .noneLit)], [
      ⟨"close", ["self"], some (.assignSelf "status" (.strLit "CLOSED"))⟩]⟩,
    .classDef ⟨"BasicTask", ["Task"], [], []⟩,
    .classDef ⟨"ProjectTask", ["Task"], [], [
      ⟨"close", ["self"], Option.none⟩]⟩]⟩

/-- The ISP problem-1 `Charger` snippet, identical in both files
(solid.py lines 205-217, talk.py lines 412-424). -/
def ispProblem1Items : List PyItem :=
  [ .classDef ⟨"Charger", ["object"], [], [
      ⟨"charge_usb1", ["self"],
        some (.exprStmt (.call1 (.attr (.name "IOUSB1") "connect") (.name "phone")))⟩,
      ⟨"charge_usb2", ["self"],
        some (.exprStmt (.call1 (.attr (.name "IOUSB2") "connect") (.name "phone")))⟩,
      ⟨"charge_apple", ["self"],
        some (.exprStmt (.call1 (.attr (.name "IOAPPLE") "connect") (.name "phone")))⟩]⟩,
    .classDef ⟨"AndroidCharger", ["Charger"], [], []⟩,
    .classDef ⟨"AppleCharger", ["Charger"], [], []⟩]

/-- solid.py, ISP problem 1. -/
def solid_ISP_P1 : Snippet := ⟨"ISP-P1", ispProblem1Items⟩

/-- solid.py, ISP solution 1 (lines 221-235): note that in this file
`AndroidCharger` and `AppleCharger` derive from `object`, not `Charger`. -/
def solid_ISP_S1 : Snippet :=
  ⟨"ISP-S1", [
    .classDef ⟨"Charger", ["object"], [], [
      ⟨"connect", ["self"], some .pass⟩,
      ⟨"disconnect", ["self"], some .pass⟩,
      ⟨"charge", ["self"], some .pass⟩]⟩,
    .classDef ⟨"AndroidCharger", ["object"], [], [
      ⟨"connect", ["self"],
        some (.exprStmt (.call1 (.attr (.name "IOUSB2") "connect") (.name "phone")))⟩]⟩,
    .classDef ⟨"AppleCharger", ["object"], [], [
      ⟨"connect", ["self"],
        some (.exprStmt (.call1 (.attr (.name "IOAPPLE") "connect") (.name "phone")))⟩]⟩]⟩

/-- The ISP problem-2 `CoffeeMachine` snippet, identical in both files. -/
def ispProblem2Items : List PyItem :=
  [ .classDef ⟨"CoffeeMachine", ["object"], [], [
      ⟨"brew_filter_coffee", ["self"], some .pass⟩,
      ⟨"add_ground_coffee", ["self"], some .pass⟩,
      ⟨"brew_espresso", ["self"], some .pass⟩]⟩,
    .classDef ⟨"BasicCoffeeMachine", ["CoffeeMachine"], [], []⟩,
    .classDef ⟨"EspressoMachine", ["CoffeeMachine"], [], []⟩]

/-- solid.py, ISP problem 2. -/
def solid_ISP_P2 : Snippet := ⟨"ISP-P2", ispProblem2Items⟩

/-- The ISP solution-2 coffee-machine hierarchy, identical in both files. -/
def ispSolution2Items : List PyItem :=
  [ .classDef ⟨"CoffeeMachine", ["object"], [], [
      ⟨"add_ground_coffee", ["self"], some .pass⟩]⟩,
    .classDef ⟨"FilterCoffeeMachine", ["CoffeeMachine"], [], [
      ⟨"brew_filter_coffee", ["self"], some .pass⟩]⟩,
    .classDef ⟨"EspressoCoffeeMachine", ["CoffeeMachine"], [], [
      ⟨"brew_espresso", ["self"], some .pass⟩]⟩,
    .classDef ⟨"BasicCoffeeMachine", ["FilterCoffeeMachine"], [], []⟩,
    .classDef ⟨"EspressoMachine", ["EspressoCoffeeMachine"], [], []⟩]

/-- solid.py, ISP solution 2. -/
def solid_ISP_S2 : Snippet := ⟨"ISP-S2", ispSolution2Items⟩

/-- The DIP problem-1 `CopyProgram` class, identical in both files
(solid.py lines 279-290, talk.py lines 489-500).  Its class attribute
references the undefined name `Disk`, and `copy` references the undefined
names `ReadKeyboard`, `WritePrinter` and `WriteDisk`. -/
def dipProblem1Items : List PyItem :=
  [ .classDef ⟨"CopyProgram", ["object"],
      [("devices", .dict2 "printer" (.name "Printer") "disk" (.name "Disk"))], [
      ⟨"__init__", ["self", "device"], some (.assignSelf "device" (.name "device"))⟩,
      ⟨"copy", ["self"],
        some (.withAs (.call0 (.name "ReadKeyboard")) "c"
          (.ifThenElse
            (.eqTest (selfA "device") (.call1 (.attr (selfA "devices") "get") (.strLit "printer")))
            (.exprStmt (.call1 (.name "WritePrinter") (.name "c")))
            (.exprStmt (.call1 (.name "WriteDisk") (.name "c")))))⟩]⟩]

/-- solid.py, DIP problem 1. -/
def solid_DIP_P1 : Snippet := ⟨"DIP-P1", dipProblem1Items⟩

/-- The DIP solution-1 `CopyProgram.copy` method, identical in both files. -/
def copySolutionDef : PyDef :=
  ⟨"copy", ["self", "reader", "writer"],
    some (.withAs (.call0 (.name "reader")) "c"
      (.exprStmt (.call1 (.name "writer") (.name "c"))))⟩

/-- solid.py, DIP solution 1 (lines 294-309): in this file `Reader` and
`Writer` derive from `object` (with an `# interface` comment). -/
def solid_DIP_S1 : Snippet :=
  ⟨"DIP-S1", [
    .classDef ⟨"Reader", ["object"], [], []⟩,
    .classDef ⟨"Writer", ["object"], [], []⟩,
    .classDef ⟨"KeyboardReader", ["object"], [], []⟩,
    .classDef ⟨"PrinterWriter", ["object"], [], []⟩,
    .classDef ⟨"CopyProgram", ["object"], [], [copySolutionDef]⟩]⟩

/-- The DIP problem-2 `Lamp`/`Button` snippet, identical in both files
(solid.py lines 313-331, talk.py lines 525-543). -/
def dipProblem2Items : List PyItem :=
  [ .classDef ⟨"Lamp", ["object"], [], [
      ⟨"turn_on", ["self"], some .pass⟩,
      ⟨"turn_off", ["self"], some .pass⟩]⟩,
    .classDef ⟨"Button", ["object"], [], [
      ⟨"__init__", ["self", "lamp"], some (.assignSelf "lamp" (.name "lamp"))⟩,
      ⟨"get_physical_state", ["self"], some .pass⟩,
      ⟨"detect", ["self"],
        some (.seq
          (.assignLocal "button_on" (selfCall0 "get_physical_state"))
          (.ifThenElse (.name "button_on")
            (.exprStmt (.call0 (.attr (selfA "lamp") "turn_on")))
            (.exprStmt (.call0 (.attr (selfA "lamp") "turn_off")))))⟩]⟩]

/-- solid.py, DIP problem 2. -/
def solid_DIP_P2 : Snippet := ⟨"DIP-P2", dipProblem2Items⟩

/-- The DIP solution-2 `Button` class, identical in both files
(solid.py lines 341-353, talk.py lines 555-567). -/
def buttonSolutionClass : PyItem :=
  .classDef ⟨"Button", ["object"], [], [
    ⟨"__init__", ["self", "button_client"],
      some (.assignSelf "button_client" (.name "button_client"))⟩,
    ⟨"detect", ["self"],
      some (.seq
        (.assignLocal "button_on" (selfCall0 "get_state"))
        (.ifThenElse (.name "button_on")
          (.exprStmt (.call0 (.attr (selfA "button_client") "turn_on")))
          (.exprStmt (.call0 (.attr (selfA "button_client") "turn_off")))))⟩,
    ⟨"get_state", ["self"], some .pass⟩]⟩

/-- solid.py, DIP solution 2 (lines 335-359): in this file `ButtonClient`
derives from `object`. -/
def solid_DIP_S2 : Snippet :=
  ⟨"DIP-S2", [
    .classDef ⟨"ButtonClient", ["object"], [], [
      ⟨"turn_on", ["self"], some .pass⟩,
      ⟨"turn_off", ["self"], some .pass⟩]⟩,
    buttonSolutionClass,
    .classDef ⟨"Lamp", ["ButtonClient"], [], []⟩,
    .classDef ⟨"ButtonImp", ["object"], [], []⟩]⟩

/-- The file `solid.py` as its list of snippets, in source order. -/
def solid_py : List Snippet :=
  [solid_SRP_P1, solid_SRP_S1,
   solid_OCP_P1, solid_OCP_S1, solid_OCP_P2, solid_OCP_S2,
   solid_LSP_P1, solid_LSP_S1, solid_LSP_P2,
   solid_ISP_P1, solid_ISP_S1, solid_ISP_P2, solid_ISP_S2,
   solid_DIP_P1, solid_DIP_S1, solid_DIP_P2, solid_DIP_S2]

/-! Transcription of `solid/talk.py`, snippet by snippet, in source order.
Snippets that are textually identical to their `solid.py` counterpart reuse
the shared item lists defined above; every other snippet is transcribed on
its own. -/

/-- talk.py, SRP problem 1 (lines 36-47): identical to solid.py. -/
def talk_SRP_P1 : Snippet := ⟨"SRP-P1", solid_SRP_P1.items⟩

/-- talk.py, SRP solution 1 (lines 51-61): identical to solid.py. -/
def talk_SRP_S1 : Snippet := ⟨"SRP-S1", solid_SRP_S1.items⟩

/-- talk.py, SRP problem 2 (lines 65-73): the one-class `Modem`. -/
def talk_SRP_P2 : Snippet :=
  ⟨"SRP-P2", [
    .classDef ⟨"Modem", ["object"], [], [
      ⟨"dial", ["self", "pno"], some .pass⟩,
      ⟨"hangup", ["self"], some .pass⟩,
      ⟨"send", ["self", "c"], some .pass⟩,
      ⟨"recv", ["self"], some .pass⟩]⟩]⟩

/-- talk.py, SRP solution 2 (lines 77-92): `from abc import ABC`,
`DataChannel`, `Connection`, and `Modem` deriving from both. -/
def talk_SRP_S2 : Snippet :=
  ⟨"SRP-S2", [
    .importAbc,
    .classDef ⟨"DataChannel", ["ABC"], [], [
      ⟨"send", ["self", "c"], some .pass⟩,
      ⟨"recv", ["self"], some .pass⟩]⟩,
    .classDef ⟨"Connection", ["ABC"], [], [
      ⟨"dial", ["self", "pno"], some .pass⟩,
      ⟨"hangup", ["self"], some .pass⟩]⟩,
    .classDef ⟨"Modem", ["DataChannel", "Connection"], [], []⟩]⟩

/-- talk.py, OCP problem 1 (lines 110-126): identical to solid.py. -/
def talk_OCP_P1 : Snippet := ⟨"OCP-P1", solid_OCP_P1.items⟩

/-- talk.py, OCP solution 1 (lines 130-145): identical to solid.py. -/
def talk_OCP_S1 : Snippet := ⟨"OCP-S1", solid_OCP_S1.items⟩

/-- talk.py, OCP problem 2 (lines 149-168): identical to solid.py; the
`ReportGenerator.print` text again fails to parse. -/
def talk_OCP_P2 : Snippet := ⟨"OCP-P2", solid_OCP_P2.items⟩

/-- talk.py, OCP solution 2 (lines 172-189): unlike solid.py, here the
delegating `print` method takes only `(self, filename)`. -/
def talk_OCP_S2 : Snippet :=
  ⟨"OCP-S2", printerClasses ++ [
    .classDef ⟨"ReportGenerator", ["object"], [], [
      ⟨"__init__", ["self", "printer"],
        some (.assignSelf "printer" (.name "printer"))⟩,
      ⟨"print", ["self", "filename"],
        some (.exprStmt (.call1 (.attr (selfA "printer") "print_file") (.name "filename")))⟩]⟩]⟩

/-- talk.py, OCP problem 3 (lines 193-204): `draw_all_shapes` dispatches on
`isinstance` inside a `for` loop. -/
def talk_OCP_P3 : Snippet :=
  ⟨"OCP-P3", [
    .classDef ⟨"Circle", ["object"], [], []⟩,
    .classDef ⟨"Square", ["object"], [], []⟩,
    .funcDef ⟨"draw_all_shapes", ["shapes"],
      some (.forIn "shape" (.name "shapes")
        (.seq
          (.ifThen (.call2 (.name "isinstance") (.name "shape") (.name "Square"))
            (.exprStmt (.call1 (.name "draw_square") (.name "shape"))))
          (.ifThen (.call2 (.name "isinstance") (.name "shape") (.name "Circle"))
            (.exprStmt (.call1 (.name "draw_circle") (.name "shape"))))))⟩]⟩

/-- talk.py, OCP solution 3 (lines 208-220): shapes draw themselves. -/
def talk_OCP_S3 : Snippet :=
  ⟨"OCP-S3", [
    .classDef ⟨"Shape", ["object"], [], [
      ⟨"draw", ["self"], some .pass⟩]⟩,
    .classDef ⟨"Circle", ["Shape"], [], []⟩,
    .classDef ⟨"Square", ["Shape"], [], []⟩,
    .funcDef ⟨"draw_all_shapes", ["shapes"],
      some (.forIn "shape" (.name "shapes")
        (.exprStmt (.call0 (.attr (.name "shape") "draw"))))⟩]⟩

/-- talk.py, LSP problem 1 (lines 276-298): unlike solid.py, this snippet
has a mutable `Rectangle` and a `Square` whose setters also call the
unbound names `set_height`/`set_width`. -/
def talk_LSP_P1 : Snippet :=
  ⟨"LSP-P1", [
    .classDef ⟨"Rectangle", ["object"],
      [("width", .noneLit), ("height", .noneLit)], [
      ⟨"set_width", ["self", "w"], some (.assignSelf "width" (.name "w"))⟩,
      ⟨"set_height", ["self", "h"], some (.assignSelf "height" (.name "h"))⟩]⟩,
    .classDef ⟨"Square", ["Rectangle"], [], [
      ⟨"set_width", ["self", "w"],
        some (.seq (.assignSelf "width" (.name "w"))
          (.exprStmt (.call1 (.name "set_height") (.name "w"))))⟩,
      ⟨"set_height", ["self", "h"],
        some (.seq (.assignSelf "height" (.name "h"))
          (.exprStmt (.call1 (.name "set_width") (.name "h"))))⟩]⟩,
    .funcDef ⟨"g", ["rectangle"],
      some (.seq
        (.exprStmt (.call1 (.attr (.name "rectangle") "set_width") (.intLit 5)))
        (.exprStmt (.call1 (.attr (.name "rectangle") "set_height") (.intLit 3))))⟩]⟩

/-- talk.py, LSP solution 1 (lines 302-332): the `Quadrilateral`
generalization, with `get_width` returning `self.x2 - self.x1` and
`get_height` returning `self.y2 - self.y1`. -/
def talk_LSP_S1 : Snippet :=
  ⟨"LSP-S1", [
    .classDef ⟨"Quadrilateral", ["object"],
      [("x1", .noneLit), ("x2", .noneLit), ("y1", .noneLit), ("y2", .noneLit),
       ("width", .noneLit), ("height", .noneLit)], [
      ⟨"set_x1", ["self", "x1"], some (.assignSelf "x1" (.name "x1"))⟩,
      ⟨"get_width", ["self"], some (.ret (.sub (selfA "x2") (selfA "x1")))⟩,
      ⟨"get_height", ["self"], some (.ret (.sub (selfA "y2") (selfA "y1")))⟩]⟩,
    .classDef ⟨"Rectangle", ["Quadrilateral"], [], []⟩,
    .classDef ⟨"Square", ["Quadrilateral"], [], []⟩,
    .funcDef ⟨"g", ["rectangle"],
      some (.seq
        (.exprStmt (.call1 (.attr (.name "rectangle") "set_x1") (.intLit 10)))
        (.seq
          (.exprStmt (.call1 (.attr (.name "rectangle") "set_x2") (.intLit 5)))
          (.seq
            (.exprStmt (.call1 (.attr (.name "rectangle") "set_y1") (.intLit 6)))
            (.exprStmt (.call1 (.attr (.name "rectangle") "set_y2") (.intLit 3))))))⟩]⟩

/-- talk.py, LSP problem 2 (lines 337-350): unlike solid.py, here
`ProjectTask.close` parses: it raises when the status is `'STARTED'` and
otherwise calls `super().close()`. -/
def talk_LSP_P2 : Snippet :=
  ⟨"LSP-P2", [
    .classDef ⟨"Task", ["object"], [("status", .noneLit)], [
      ⟨"close", ["self"], some (.assignSelf "status" (.strLit "CLOSED"))⟩]⟩,
    .classDef ⟨"BasicTask", ["Task"], [], []⟩,
    .classDef ⟨"ProjectTask", ["Task"], [], [
      ⟨"close", ["self"],
        some (.seq
          (.ifThen (.eqTest (selfA "status") (.strLit "STARTED"))
            (.raiseExc "Exception" "Cannot close Task"))
          (.exprStmt (.call0 (.attr (.call0 (.name "super")) "close"))))⟩]⟩]⟩

/-- talk.py, LSP solution 2 (lines 354-370), only in talk.py: `Task.close`
guards the assignment with `self.can_close()` but then raises
unconditionally. -/
def talk_LSP_S2 : Snippet :=
  ⟨"LSP-S2", [
    .classDef ⟨"Task", ["object"], [("status", .noneLit)], [
      ⟨"can_close", ["self"], some (.ret (.boolLit true))⟩,
      ⟨"close", ["self"],
        some (.seq
          (.ifThen (selfCall0 "can_close")
            (.assignSelf "status" (.strLit "CLOSED")))
          (.raiseExc "Exception" "Cannot close Task"))⟩]⟩,
    .classDef ⟨"BasicTask", ["Task"], [], []⟩,
    .classDef ⟨"ProjectTask", ["Task"], [], [
      ⟨"can_close", ["self"],
        some (.ret (.eqTest (selfA "status") (.strLit "STARTED")))⟩]⟩]⟩

/-- The body of the two-assignment point constructor
(`self.x = x` then `self.y = y`). -/
def pointInitBody : PyStmt :=
  .seq (.assignSelf "x" (.name "x")) (.assignSelf "y" (.name "y"))

/-- The `set_x`/`set_y` methods of `MutablePoint`, shared by the LSP
problem-3 and solution-3 snippets. -/
def mutablePointMethods : List PyDef :=
  [⟨"set_x", ["self", "x"], some (.assignSelf "x" (.name "x"))⟩,
   ⟨"set_y", ["self", "y"], some (.assignSelf "y" (.name "y"))⟩]

/-- talk.py, LSP problem 3 (lines 376-386), only in talk.py: a mutable
point deriving from an immutable one. -/
def talk_LSP_P3 : Snippet :=
  ⟨"LSP-P3", [
    .classDef ⟨"ImmutablePoint", ["object"], [], [
      ⟨"__init__", ["self", "x", "y"], some pointInitBody⟩]⟩,
    .classDef ⟨"MutablePoint", ["ImmutablePoint"], [], mutablePointMethods⟩]⟩

/-- talk.py, LSP solution 3 (lines 390-403), only in talk.py: both point
kinds derive from a common `Point`. -/
def talk_LSP_S3 : Snippet :=
  ⟨"LSP-S3", [
    .classDef ⟨"Point", ["object"], [], [
      ⟨"__init__", ["self", "x", "y"], some pointInitBody⟩]⟩,
    .classDef ⟨"ImmutablePoint", ["Point"], [], []⟩,
    .classDef ⟨"MutablePoint", ["Point"], [], mutablePointMethods⟩]⟩

/-- talk.py, ISP problem 1 (lines 412-424): identical to solid.py. -/
def talk_ISP_P1 : Snippet := ⟨"ISP-P1", ispProblem1Items⟩

/-- talk.py, ISP solution 1 (lines 428-442): unlike solid.py, here
`AndroidCharger` and `AppleCharger` derive from `Charger`. -/
def talk_ISP_S1 : Snippet :=
  ⟨"ISP-S1", [
    .classDef ⟨"Charger", ["object"], [], [
      ⟨"connect", ["self"], some .pass⟩,
      ⟨"disconnect", ["self"], some .pass⟩,
      ⟨"charge", ["self"], some .pass⟩]⟩,
    .classDef ⟨"AndroidCharger", ["Charger"], [], [
      ⟨"connect", ["self"],
        some (.exprStmt (.call1 (.attr (.name "IOUSB2") "connect") (.name "phone")))⟩]⟩,
    .classDef ⟨"AppleCharger", ["Charger"], [], [
      ⟨"connect", ["self"],
        some (.exprStmt (.call1 (.attr (.name "IOAPPLE") "connect") (.name "phone")))⟩]⟩]⟩

/-- talk.py, ISP problem 2 (lines 446-458): identical to solid.py. -/
def talk_ISP_P2 : Snippet := ⟨"ISP-P2", ispProblem2Items⟩

/-- talk.py, ISP solution 2 (lines 462-478): identical to solid.py. -/
def talk_ISP_S2 : Snippet := ⟨"ISP-S2", ispSolution2Items⟩

/-- talk.py, DIP problem 1 (lines 489-500): identical to solid.py. -/
def talk_DIP_P1 : Snippet := ⟨"DIP-P1", dipProblem1Items⟩

/-- talk.py, DIP solution 1 (lines 504-521): unlike solid.py, here `Reader`
and `Writer` derive from the imported `ABC`. -/
def talk_DIP_S1 : Snippet :=
  ⟨"DIP-S1", [
    .importAbc,
    .classDef ⟨"Reader", ["ABC"], [], []⟩,
    .classDef ⟨"Writer", ["ABC"], [], []⟩,
    .classDef ⟨"KeyboardReader", ["object"], [], []⟩,
    .classDef ⟨"PrinterWriter", ["object"], [], []⟩,
    .classDef ⟨"CopyProgram", ["object"], [], [copySolutionDef]⟩]⟩

/-- talk.py, DIP problem 2 (lines 525-543): identical to solid.py. -/
def talk_DIP_P2 : Snippet := ⟨"DIP-P2", dipProblem2Items⟩

/-- talk.py, DIP solution 2 (lines 547-573): unlike solid.py, here
`ButtonClient` derives from the imported `ABC`. -/
def talk_DIP_S2 : Snippet :=
  ⟨"DIP-S2", [
    .importAbc,
    .classDef ⟨"ButtonClient", ["ABC"], [], [
      ⟨"turn_on", ["self"], some .pass⟩,
      ⟨"turn_off", ["self"], some .pass⟩]⟩,
    buttonSolutionClass,
    .classDef ⟨"Lamp", ["ButtonClient"], [], []⟩,
    .classDef ⟨"ButtonImp", ["object"], [], []⟩]⟩

/-- The file `solid/talk.py` as its list of snippets, in source order. -/
def talk_py : List Snippet :=
  [talk_SRP_P1, talk_SRP_S1, talk_SRP_P2, talk_SRP_S2,
   talk_OCP_P1, talk_OCP_S1, talk_OCP_P2, talk_OCP_S2, talk_OCP_P3, talk_OCP_S3,
   talk_LSP_P1, talk_LSP_S1, talk_LSP_P2, talk_LSP_S2, talk_LSP_P3, talk_LSP_S3,
   talk_ISP_P1, talk_ISP_S1, talk_ISP_P2, talk_ISP_S2,
   talk_DIP_P1, talk_DIP_S1, talk_DIP_P2, talk_DIP_S2]

/-! Census functions over the transcribed files. -/

/-- The methods contributed by one module-level item, tagged with the
snippet label and the class name.  Module-level functions are not methods
of a class and contribute nothing. -/
def classMethodEntries (label : String) : PyItem → List (String × String × PyDef)
  | .classDef c => c.methods.map (fun d => (label, c.name, d))
  | _ => []

/-- Every method of every class of a file, as
(snippet label, class name, def) triples in source order. -/
def fileMethods (f : List Snippet) : List (String × String × PyDef) :=
  f.flatMap (fun s => s.items.flatMap (classMethodEntries s.label))

/-- Every method of every class of the whole repository. -/
def allMethods : List (String × String × PyDef) :=
  fileMethods solid_py ++ fileMethods talk_py

/-- Look a method up by snippet label, class name and method name. -/
def findMethod (f : List Snippet) (l c m : String) : Option PyDef :=
  ((fileMethods f).find? (fun e => e.1 == l && e.2.1 == c && e.2.2.name == m)).map
    (fun e => e.2.2)

/-- The module-level name an item binds (`from abc import ABC` binds
`ABC`). -/
def itemName : PyItem → String
  | .classDef c => c.name
  | .funcDef d => d.name
  | .importAbc => "ABC"

/-- All names bound at module level by a file, in source order. -/
def topLevelNames (f : List Snippet) : List String :=
  f.flatMap (fun s => s.items.map itemName)

/-- The class names defined by a file. -/
def classNames (f : List Snippet) : List String :=
  f.flatMap (fun s => s.items.flatMap (fun it =>
    match it with
    | .classDef c => [c.name]
    | _ => []))

/-- The snippet labels of a file, in source order. -/
def labelsOf (f : List Snippet) : List String := f.map Snippet.label

/-- Look a snippet up by label. -/
def findSnippet (f : List Snippet) (l : String) : Option Snippet :=
  f.find? (fun s => s.label == l)

/-- The labels of the snippets that appear in both files. -/
def sharedLabels : List String :=
  (labelsOf solid_py).filter (fun l => (labelsOf talk_py).contains l)

/-- The shared snippets whose talk.py version differs from the solid.py
version: the OCP solution 2 (`print` loses its `ink_type` parameter), the
two LSP shape snippets (replaced wholesale), the LSP task problem
(`ProjectTask.close` rewritten into parsing code with `super().close()`),
the ISP solution 1 (charger base classes) and the two DIP solutions
(`Reader`/`Writer`/`ButtonClient` made `ABC`-based). -/
def revisedLabels : List String :=
  ["OCP-S2", "LSP-P1", "LSP-S1", "LSP-P2", "ISP-S1", "DIP-S1", "DIP-S2"]

/-- The methods of the two files whose body is not of the trivial shape
(`pass` / single return of field arithmetic / single field assignment),
keyed by (snippet label, class name, method name).  Each entry is an
illustrative stub: a delegated or bare call, a multi-assignment
constructor, an `isinstance` or flag dispatch, a `with` block, a raise, or
a method whose text does not parse. -/
def c1NonTrivial : List (String × String × String) :=
  [("SRP-P1", "Employee", "calculate_pay"),
   ("SRP-P1", "Employee", "report_hours"),
   ("SRP-S1", "PaymentCalculator", "calculate_pay"),
   ("SRP-S1", "Reporter", "report_hours"),
   ("OCP-P1", "Operation", "__init__"),
   ("OCP-P1", "BasicCalculator", "calculate"),
   ("OCP-S1", "Operation", "__init__"),
   ("OCP-S1", "BasicCalculator", "calculate"),
   ("OCP-P2", "ColorPrinter", "print"),
   ("OCP-P2", "BWPrinter", "print"),
   ("OCP-P2", "ReportGenerator", "print"),
   ("OCP-S2", "ColorPrinter", "print"),
   ("OCP-S2", "BWPrinter", "print"),
   ("OCP-S2", "ReportGenerator", "print"),
   ("LSP-P1", "ShapeCalculator", "calculate_perimeter"),
   ("LSP-P1", "Square", "set_width"),
   ("LSP-P1", "Square", "set_height"),
   ("LSP-S1", "ShapeCalculator", "calculate_perimeter"),
   ("LSP-P2", "ProjectTask", "close"),
   ("LSP-S2", "Task", "can_close"),
   ("LSP-S2", "Task", "close"),
   ("LSP-S2", "ProjectTask", "can_close"),
   ("LSP-P3", "ImmutablePoint", "__init__"),
   ("LSP-S3", "Point", "__init__"),
   ("ISP-P1", "Charger", "charge_usb1"),
   ("ISP-P1", "Charger", "charge_usb2"),
   ("ISP-P1", "Charger", "charge_apple"),
   ("ISP-S1", "AndroidCharger", "connect"),
   ("ISP-S1", "AppleCharger", "connect"),
   ("DIP-P1", "CopyProgram", "copy"),
   ("DIP-S1", "CopyProgram", "copy"),
   ("DIP-P2", "Button", "detect"),
   ("DIP-S2", "Button", "detect")]

/-! Token-level model of the Python statement-line grammar used by the
`ReportGenerator.print` problem snippet.  A physical line of the snippet is
a list of tokens; `lineValid` follows the Python grammar for the statement
forms that occur in the snippet.  The only rule that matters for the claim
is exact: in a Python `if` statement, the `else` keyword is followed
directly by `:` (the grammar production is `else_block: 'else' ':' block`);
an `else` clause cannot carry a condition.  The expression check
`exprToks` is deliberately permissive (it only excludes statement keywords
and `:`), which can only make MORE lines count as parsing, so proving that
a line list fails to parse does not lean on it. -/

/-- Tokens of the modelled Python fragment. -/
inductive Tok where
  | kwDef | kwIf | kwElif | kwElse | kwReturn | kwRaise | kwPass
  | ident (s : String)
  | strTok (s : String)
  | lparen | rparen | colon | comma | dot | opEqEq
  deriving DecidableEq, Repr

/-- Tokens that may occur inside an expression: everything except
statement keywords and `:`. -/
def exprTok : Tok → Bool
  | .kwDef => false
  | .kwIf => false
  | .kwElif => false
  | .kwElse => false
  | .kwReturn => false
  | .kwRaise => false
  | .kwPass => false
  | .colon => false
  | _ => true

/-- A nonempty token list made of expression tokens. -/
def exprToks (ts : List Tok) : Bool := !ts.isEmpty && ts.all exprTok

/-- An `if`/`elif` header tail: an expression followed by `:`. -/
def headerValid (ts : List Tok) : Bool :=
  match ts.reverse with
  | .colon :: rest => exprToks rest.reverse
  | _ => false

/-- A parameter list tail: identifiers separated by commas. -/
def paramToks : List Tok → Bool
  | [] => true
  | [.ident _] => true
  | .ident _ :: .comma :: more => paramToks more
  | _ => false

/-- A `def` header tail: `name ( params ) :`. -/
def defHeaderValid (ts : List Tok) : Bool :=
  match ts with
  | .ident _ :: .lparen :: rest =>
    match rest.reverse with
    | .colon :: .rparen :: ps => paramToks ps.reverse
    | _ => false
  | _ => false

/-- Validity of one physical statement line under the modelled Python
grammar rules.  The `else` rule is the exact Python production: the tail
after the keyword must be precisely `:`. -/
def lineValid : List Tok → Bool
  | [.kwPass] => true
  | .kwReturn :: rest => exprToks rest
  | .kwRaise :: rest => exprToks rest
  | .kwIf :: rest => headerValid rest
  | .kwElif :: rest => headerValid rest
  | .kwElse :: rest => rest == [.colon]
  | .kwDef :: rest => defHeaderValid rest
  | ts => exprToks ts

/-- A list of statement lines parses only if every line is valid. -/
def parsesAll (ls : List (List Tok)) : Bool := ls.all lineValid

/-- The tail of the offending line: `ink_type == 'COLOR':`. -/
def elseColorTail : List Tok :=
  [.ident "ink_type", .opEqEq, .strTok "COLOR", .colon]

/-- The offending line `else ink_type == 'COLOR':`
(solid.py line 117, talk.py line 165). -/
def elseColorLine : List Tok := .kwElse :: elseColorTail

/-- The lines of the problem-version `ReportGenerator.print` method,
tokenized from the source (solid.py lines 114-120, talk.py lines 162-168;
the text is identical in the two files). -/
def reportGeneratorPrintLines : List (List Tok) :=
  [[.kwDef, .ident "print", .lparen, .ident "self", .comma, .ident "filename",
    .comma, .ident "ink_type", .rparen, .colon],
   [.kwIf, .ident "ink_type", .opEqEq, .strTok "BLACK", .colon],
   [.ident "BWPrinter", .dot, .ident "print_file", .lparen, .ident "filename", .rparen],
   elseColorLine,
   [.ident "ColorPrinter", .dot, .ident "print_file", .lparen, .ident "filename", .rparen],
   [.kwElse, .colon],
   [.kwRaise, .ident "BaseException", .lparen,
    .strTok "There is no printer for that type", .rparen]]

/-! Semantic model: Python values, objects as attribute maps, and a direct
state-passing translation of the executable methods the claims are about.
A method that can raise returns `resulting object × Option String`; the
`Option String` is `some msg` when an exception is raised, in which case
the first component is the state of the object at the moment of the raise. -/

/-- Python values of the ground types occurring in the snippets. -/
inductive PyVal where
  | none
  | int (n : Int)
  | str (s : String)
  | bool (b : Bool)
  deriving DecidableEq, Repr

/-- A Python object as the association list of its attributes.  Attribute
assignment updates the list; reading an absent key yields `PyVal.none`,
which models the class-level `status = None` / `width = None` defaults of
the transcribed classes. -/
def Obj : Type := List (String × PyVal)

instance : DecidableEq Obj := by
  unfold Obj
  infer_instance

/-- Read an attribute (with the class-level `None` default). -/
def getAttr : Obj → String → PyVal
  | [], _ => PyVal.none
  | (k, v) :: rest, a => if k = a then v else getAttr rest a

/-- Set an attribute, as Python attribute assignment does. -/
def setAttr : Obj → String → PyVal → Obj
  | [], a, v => [(a, v)]
  | (k, w) :: rest, a, v => if k = a then (a, v) :: rest else (k, w) :: setAttr rest a v

/-- The integer a value contributes to arithmetic and `==`; Python treats
`bool` as an `int` subtype (`True == 1`). -/
def asInt : PyVal → Option Int
  | .int n => some n
  | .bool b => some (if b then 1 else 0)
  | _ => Option.none

/-- Python `==` on the modelled ground types. -/
def pyEq (a b : PyVal) : Bool :=
  match asInt a, asInt b with
  | some m, some n => m == n
  | _, _ =>
    match a, b with
    | .str s, .str t => s == t
    | .none, .none => true
    | _, _ => false

/-- Python `+` on the modelled ground types (`TypeError` is `none`). -/
def pyAdd (a b : PyVal) : Option PyVal :=
  match asInt a, asInt b with
  | some m, some n => some (.int (m + n))
  | _, _ =>
    match a, b with
    | .str s, .str t => some (.str (s ++ t))
    | _, _ => Option.none

/-- Python `-` on the modelled ground types. -/
def pySub (a b : PyVal) : Option PyVal :=
  match asInt a, asInt b with
  | some m, some n => some (.int (m - n))
  | _, _ => Option.none

/-- Python `*` restricted to numeric operands (the only use the claims
need). -/
def pyMul (a b : PyVal) : Option PyVal :=
  match asInt a, asInt b with
  | some m, some n => some (.int (m * n))
  | _, _ => Option.none

/-- Python truthiness of the modelled ground types (`None` is falsy). -/
def truthy : PyVal → Bool
  | .none => false
  | .bool b => b
  | .int n => n != 0
  | .str s => !(s == "")

/-- `Task.close` of the LSP problem version (solid.py lines 189-190 and
talk.py lines 340-341, identical): `self.status = 'CLOSED'`. -/
def Task_close (o : Obj) : Obj := setAttr o "status" (.str "CLOSED")

/-- `ProjectTask.close` of the LSP problem version of talk.py
(lines 347-350): raise `Exception('Cannot close Task')` when
`self.status == 'STARTED'`, otherwise `super().close()`. -/
def ProjectTask_close (o : Obj) : Obj × Option String :=
  if pyEq (getAttr o "status") (.str "STARTED")
  then (o, some "Cannot close Task")
  else (Task_close o, Option.none)

/-- `Task.can_close` of the LSP solution version of talk.py
(lines 357-358): `return True`. -/
def Task_can_close (_ : Obj) : Bool := true

/-- `ProjectTask.can_close` of the LSP solution version of talk.py
(lines 369-370): `return self.status == 'STARTED'`. -/
def ProjectTask_can_close (o : Obj) : Bool :=
  pyEq (getAttr o "status") (.str "STARTED")

/-- `Task.close` of the LSP solution version of talk.py (lines 360-363).
The dynamically dispatched `self.can_close()` is passed in as `canClose`
(`Task_can_close` for `Task`/`BasicTask`, `ProjectTask_can_close` for
`ProjectTask`).  The body assigns `self.status = 'CLOSED'` under the guard
and then raises unconditionally, so the second component is always
`some _`. -/
def TaskSol_close (canClose : Obj → Bool) (o : Obj) : Obj × Option String :=
  ((if canClose o then setAttr o "status" (.str "CLOSED") else o),
   some "Cannot close Task")

/-- `Square.set_width` of the LSP problem version of talk.py
(lines 288-290): `self.width = w` executes first; the following statement
evaluates the bare name `set_height`, which is unbound in talk.py's module
namespace (see `topLevelNames talk_py`), so execution stops with a
NameError after the width assignment. -/
def Square_set_width (o : Obj) (w : PyVal) : Obj × Option String :=
  (setAttr o "width" w, some "NameError: name set_height is not defined")

/-- `Square.set_height` of the LSP problem version of talk.py
(lines 292-294), symmetric to `Square_set_width`. -/
def Square_set_height (o : Obj) (h : PyVal) : Obj × Option String :=
  (setAttr o "height" h, some "NameError: name set_width is not defined")

/-- `Addition.peform_operation` (solid.py lines 88-89, talk.py
lines 136-137): `return self.x + self.y`. -/
def Addition_peform_operation (o : Obj) : Option PyVal :=
  pyAdd (getAttr o "x") (getAttr o "y")

/-- `Subtraction.peform_operation` (solid.py lines 92-93, talk.py
lines 140-141): `return self.x - self.y`. -/
def Subtraction_peform_operation (o : Obj) : Option PyVal :=
  pySub (getAttr o "x") (getAttr o "y")

/-- `Shape.get_perimeter` (solid.py lines 171-172):
`return self.x * 2 + self.y * 2`. -/
def Shape_get_perimeter (o : Obj) : Option PyVal :=
  match pyMul (getAttr o "x") (.int 2), pyMul (getAttr o "y") (.int 2) with
  | some u, some v => pyAdd u v
  | _, _ => Option.none

/-- `Quadrilateral.get_width` (talk.py lines 315-316):
`return self.x2 - self.x1`. -/
def Quadrilateral_get_width (o : Obj) : Option PyVal :=
  pySub (getAttr o "x2") (getAttr o "x1")

/-- `Quadrilateral.get_height` (talk.py lines 318-319):
`return self.y2 - self.y1`. -/
def Quadrilateral_get_height (o : Obj) : Option PyVal :=
  pySub (getAttr o "y2") (getAttr o "y1")

/-- `Operation.__init__` (both files): `self.x = x; self.y = y`. -/
def Operation_init (o : Obj) (x y : PyVal) : Obj :=
  setAttr (setAttr o "x" x) "y" y

/-- Which method `Button.detect` ends up invoking on the attached
client. -/
inductive ClientCall where
  | turnOn
  | turnOff
  deriving DecidableEq, Repr

/-- `Button.get_state` of the DIP solution version (solid.py
lines 352-353, talk.py lines 566-567): the body is `pass`, so the call
returns `None`. -/
def Button_get_state (_ : Obj) : PyVal := PyVal.none

/-- `Button.detect` of the DIP solution version (solid.py lines 345-350,
talk.py lines 559-564): `button_on = self.get_state()`, then
`turn_on` on a truthy value and `turn_off` otherwise. -/
def Button_detect (o : Obj) : ClientCall :=
  if truthy (Button_get_state o) then .turnOn else .turnOff

/-- `Button.get_physical_state` of the DIP problem version (solid.py
lines 323-324, talk.py lines 535-536): the body is `pass`. -/
def Button_get_physical_state (_ : Obj) : PyVal := PyVal.none

/-- `Button.detect` of the DIP problem version (solid.py lines 326-331,
talk.py lines 538-543), dispatching on `self.get_physical_state()`. -/
def ButtonProblem_detect (o : Obj) : ClientCall :=
  if truthy (Button_get_physical_state o) then .turnOn else .turnOff

/-- The observable effects of `CopyProgram.copy` (problem version):
entering the `with` block acquires the reader, then one device write
happens. -/
inductive CopyEffect where
  | acquire
  | writePrinter
  | writeDisk
  deriving DecidableEq, Repr

/-- `CopyProgram.copy` of the DIP problem version (solid.py lines 285-290,
talk.py lines 495-500), evaluated in a module namespace binding the names
`env`.  Execution order follows the source: the `with` context expression
`ReadKeyboard()` is evaluated first, so when that name is unbound the
method stops with a NameError before any resource is acquired or any
write happens.  `deviceIsPrinter` abstracts the pure comparison
`self.device == self.devices.get('printer')`. -/
def CopyProgram_copy (env : List String) (deviceIsPrinter : Bool) :
    List CopyEffect × Option String :=
  if env.contains "ReadKeyboard" then
    if deviceIsPrinter then
      if env.contains "WritePrinter"
      then ([.acquire, .writePrinter], Option.none)
      else ([.acquire], some "NameError: name WritePrinter is not defined")
    else
      if env.contains "WriteDisk"
      then ([.acquire, .writeDisk], Option.none)
      else ([.acquire], some "NameError: name WriteDisk is not defined")
  else ([], some "NameError: name ReadKeyboard is not defined")

/-! Helper lemmas about the attribute map and the value semantics. -/

theorem getAttr_setAttr_same (o : Obj) (a : String) (v : PyVal) :
    getAttr (setAttr o a v) a = v := by
  induction o with
  | nil => simp [setAttr, getAttr]
  | cons hd tl ih =>
    obtain ⟨k, w⟩ := hd
    by_cases h : k = a
    · simp [setAttr, h, getAttr]
    · simp [setAttr, h, getAttr, ih]

theorem getAttr_setAttr_other (o : Obj) (a b : String) (v : PyVal) (hb : b ≠ a) :
    getAttr (setAttr o a v) b = getAttr o b := by
  have hab : a ≠ b := fun h => hb h.symm
  induction o with
  | nil => simp [setAttr, getAttr, hab]
  | cons hd tl ih =>
    obtain ⟨k, w⟩ := hd
    by_cases h : k = a
    · subst h
      simp [setAttr, getAttr, hab]
    · by_cases h2 : k = b <;> simp [setAttr, h, getAttr, h2, ih, hab, hb]

theorem pyEq_str_iff (x : PyVal) (s : String) :
    pyEq x (.str s) = true ↔ x = .str s := by
  cases x <;> simp [pyEq, asInt]

/-! The claims. -/

/-- Claim C1, counterexample.  The claim says every method body of every
class is a no-op, a single return of field arithmetic, or a single field
assignment, with no branching or multi-step logic.  This is false on the
code: `Button.detect` (cited by the claim itself) is a two-statement body
with an if/else, and the repository-wide check fails. -/
theorem claimC1_counterexample :
    ((findMethod talk_py "DIP-S2" "Button" "detect").map
      (fun d => trivialBody d.body)) = some false
    ∧ (allMethods.all (fun m => trivialBody m.2.2.body)) = false := by
  exact ⟨rfl, rfl⟩

/-- Claim C1, amended.  Every method body of every class in the two files
is a no-op (`pass`), a single return of an arithmetic expression over the
object's fields, or a single field assignment, EXCEPT the methods
enumerated in `c1NonTrivial` (delegating returns, bare call statements,
two-assignment constructors, `isinstance`/flag dispatch, `with` blocks,
raises, boolean-returning guards, and the two methods whose text does not
parse); each enumerated method really is of a non-trivial shape, and no
method body contains a loop. -/
theorem claimC1_amended :
    (allMethods.all (fun m =>
      trivialBody m.2.2.body || c1NonTrivial.contains (m.1, m.2.1, m.2.2.name))) = true
    ∧ (c1NonTrivial.all (fun k =>
        allMethods.any (fun m =>
          (m.1, m.2.1, m.2.2.name) == k && !(trivialBody m.2.2.body)))) = true
    ∧ (allMethods.all (fun m => (m.2.2.body.map loopFree).getD true)) = true := by
  exact ⟨rfl, rfl, rfl⟩

/-- Claim C2.  The line `else ink_type == 'COLOR':` of the problem-version
`ReportGenerator.print` violates the Python grammar (an `else` keyword is
followed directly by `:`), so the snippet does not parse; the same tail
after `elif` would be fine, so the failure is exactly the `else` clause;
and any file (list of statement lines) containing that line fails to
parse as a whole — a Python module that does not parse raises
`SyntaxError` at load time, so no statement in it ever executes.  Both
source files contain this very line (solid.py line 117, talk.py
line 165). -/
theorem claimC2 :
    lineValid elseColorLine = false
    ∧ parsesAll reportGeneratorPrintLines = false
    ∧ lineValid (Tok.kwElif :: elseColorTail) = true
    ∧ ∀ ls : List (List Tok), elseColorLine ∈ ls → parsesAll ls = false := by
  refine ⟨rfl, rfl, rfl, ?_⟩
  intro ls hmem
  cases hall : ls.all lineValid with
  | false => exact hall
  | true =>
    exact absurd (List.all_eq_true.mp hall elseColorLine hmem) (by decide)

/-- Witness for C2: the transcribed snippet contains the offending line,
and the theorem applied to it shows the snippet fails to parse. -/
theorem claimC2_witness :
    elseColorLine ∈ reportGeneratorPrintLines
    ∧ parsesAll reportGeneratorPrintLines = false :=
  ⟨by decide, claimC2.2.2.2 reportGeneratorPrintLines (by decide)⟩

/-- Claim C3.  For the LSP problem version in talk.py, `ProjectTask.close`
raises exactly when the status is `'STARTED'` (leaving the object
untouched, since the raise precedes any assignment), and otherwise
delegates to the supertype's `close`, which sets the status to
`'CLOSED'`. -/
theorem claimC3 (o : Obj) :
    ProjectTask_close o =
      (if getAttr o "status" = PyVal.str "STARTED"
       then (o, some "Cannot close Task")
       else (Task_close o, Option.none))
    ∧ (((ProjectTask_close o).2).isSome ↔ getAttr o "status" = PyVal.str "STARTED")
    ∧ getAttr (Task_close o) "status" = PyVal.str "CLOSED" := by
  have hiff := pyEq_str_iff (getAttr o "status") "STARTED"
  have h1 : ProjectTask_close o =
      (if getAttr o "status" = PyVal.str "STARTED"
       then (o, some "Cannot close Task")
       else (Task_close o, Option.none)) := by
    unfold ProjectTask_close
    by_cases h : getAttr o "status" = PyVal.str "STARTED"
    · rw [if_pos (hiff.mpr h), if_pos h]
    · rw [if_neg (fun hc => h (hiff.mp hc)), if_neg h]
  refine ⟨h1, ?_, getAttr_setAttr_same o "status" (PyVal.str "CLOSED")⟩
  rw [h1]
  by_cases h : getAttr o "status" = PyVal.str "STARTED" <;> simp [h]

/-- Witness for C3 at a started and at a fresh task object. -/
theorem claimC3_witness :
    ProjectTask_close [("status", PyVal.str "STARTED")]
      = ([("status", PyVal.str "STARTED")], some "Cannot close Task")
    ∧ ProjectTask_close [] = ([("status", PyVal.str "CLOSED")], Option.none) := by
  constructor
  · rw [(claimC3 [("status", PyVal.str "STARTED")]).1]
    rfl
  · rw [(claimC3 []).1]
    rfl

/-- Claim C4.  The arithmetic stubs compute exactly the expressions
written in them: on objects with integer fields, `Addition` returns
`x + y`, `Subtraction` returns `x - y`, `Shape.get_perimeter` returns
`2*x + 2*y`, and `Quadrilateral` returns `x2 - x1` and `y2 - y1`. -/
theorem claimC4 (o q : Obj) (a b x1 x2 y1 y2 : Int)
    (hx : getAttr o "x" = PyVal.int a) (hy : getAttr o "y" = PyVal.int b)
    (h1 : getAttr q "x1" = PyVal.int x1) (h2 : getAttr q "x2" = PyVal.int x2)
    (h3 : getAttr q "y1" = PyVal.int y1) (h4 : getAttr q "y2" = PyVal.int y2) :
    Addition_peform_operation o = some (PyVal.int (a + b))
    ∧ Subtraction_peform_operation o = some (PyVal.int (a - b))
    ∧ Shape_get_perimeter o = some (PyVal.int (2 * a + 2 * b))
    ∧ Quadrilateral_get_width q = some (PyVal.int (x2 - x1))
    ∧ Quadrilateral_get_height q = some (PyVal.int (y2 - y1)) := by
  unfold Addition_peform_operation Subtraction_peform_operation
    Shape_get_perimeter Quadrilateral_get_width Quadrilateral_get_height
  rw [hx, hy, h1, h2, h3, h4]
  refine ⟨rfl, rfl, ?_, rfl, rfl⟩
  simp only [pyMul, pyAdd, asInt]
  have : a * 2 + b * 2 = 2 * a + 2 * b := by ring
  rw [this]

/-- Witness for C4 on a concrete operation object and quadrilateral. -/
theorem claimC4_witness :
    Addition_peform_operation [("x", PyVal.int 3), ("y", PyVal.int 4)]
      = some (PyVal.int (3 + 4))
    ∧ Subtraction_peform_operation [("x", PyVal.int 3), ("y", PyVal.int 4)]
      = some (PyVal.int (3 - 4))
    ∧ Shape_get_perimeter [("x", PyVal.int 3), ("y", PyVal.int 4)]
      = some (PyVal.int (2 * 3 + 2 * 4))
    ∧ Quadrilateral_get_width
        [("x1", PyVal.int 1), ("x2", PyVal.int 5), ("y1", PyVal.int 2), ("y2", PyVal.int 7)]
      = some (PyVal.int (5 - 1))
    ∧ Quadrilateral_get_height
        [("x1", PyVal.int 1), ("x2", PyVal.int 5), ("y1", PyVal.int 2), ("y2", PyVal.int 7)]
      = some (PyVal.int (7 - 2)) :=
  claimC4 [("x", PyVal.int 3), ("y", PyVal.int 4)]
    [("x1", PyVal.int 1), ("x2", PyVal.int 5), ("y1", PyVal.int 2), ("y2", PyVal.int 7)]
    3 4 1 5 2 7 rfl rfl rfl rfl rfl rfl

/-- Claim C5.  `Task.close` of the LSP problem version (identical in the
two files) sets the `status` attribute to `'CLOSED'` and leaves every
other attribute of the object unchanged. -/
theorem claimC5 (o : Obj) (k : String) (hk : k ≠ "status") :
    getAttr (Task_close o) "status" = PyVal.str "CLOSED"
    ∧ getAttr (Task_close o) k = getAttr o k :=
  ⟨getAttr_setAttr_same o "status" (.str "CLOSED"),
   getAttr_setAttr_other o "status" k (.str "CLOSED") hk⟩

/-- Witness for C5 on a task object carrying an unrelated attribute. -/
theorem claimC5_witness :
    getAttr (Task_close [("status", PyVal.str "STARTED"), ("owner", PyVal.str "ada")])
      "status" = PyVal.str "CLOSED"
    ∧ getAttr (Task_close [("status", PyVal.str "STARTED"), ("owner", PyVal.str "ada")])
        "owner"
      = getAttr [("status", PyVal.str "STARTED"), ("owner", PyVal.str "ada")] "owner" :=
  claimC5 [("status", PyVal.str "STARTED"), ("owner", PyVal.str "ada")] "owner" (by decide)

/-- Claim C6.  In the problem-version `CopyProgram.copy`, the `with`
context expression `ReadKeyboard()` is evaluated first; in any namespace
not binding `ReadKeyboard` — in particular the module namespaces of both
source files, which also bind none of `WritePrinter`/`WriteDisk` — the
call stops with a NameError with an empty effect trace: no resource is
acquired and no device write is performed, for every device argument. -/
theorem claimC6 (env : List String) (d : Bool)
    (h : env.contains "ReadKeyboard" = false) :
    CopyProgram_copy env d = ([], some "NameError: name ReadKeyboard is not defined")
    ∧ (topLevelNames solid_py).contains "ReadKeyboard" = false
    ∧ (topLevelNames talk_py).contains "ReadKeyboard" = false
    ∧ (topLevelNames solid_py).contains "WritePrinter" = false
    ∧ (topLevelNames talk_py).contains "WritePrinter" = false
    ∧ (topLevelNames solid_py).contains "WriteDisk" = false
    ∧ (topLevelNames talk_py).contains "WriteDisk" = false
    ∧ CopyProgram_copy (topLevelNames solid_py) d
        = ([], some "NameError: name ReadKeyboard is not defined")
    ∧ CopyProgram_copy (topLevelNames talk_py) d
        = ([], some "NameError: name ReadKeyboard is not defined") := by
  refine ⟨?_, rfl, rfl, rfl, rfl, rfl, rfl, rfl, rfl⟩
  unfold CopyProgram_copy
  rw [h]
  simp

/-- Witness for C6 in the module namespace of solid.py. -/
theorem claimC6_witness :
    CopyProgram_copy (topLevelNames solid_py) true
      = ([], some "NameError: name ReadKeyboard is not defined") :=
  (claimC6 (topLevelNames solid_py) true rfl).1

/-- Claim C7, counterexample.  The claim says talk.py only adds examples
and every snippet present in both files defines the same behavior.  This
is false: in the shared LSP problem-2 snippet, `ProjectTask.close` does
not parse in solid.py but is executable code in talk.py, and in the shared
OCP solution-2 snippet the delegating `print` takes three parameters in
solid.py but two in talk.py. -/
theorem claimC7_counterexample :
    (findSnippet solid_py "LSP-P2" == findSnippet talk_py "LSP-P2") = false
    ∧ ((findMethod solid_py "LSP-P2" "ProjectTask" "close").map
        (fun d => d.body.isSome)) = some false
    ∧ ((findMethod talk_py "LSP-P2" "ProjectTask" "close").map
        (fun d => d.body.isSome)) = some true
    ∧ ((findMethod solid_py "OCP-S2" "ReportGenerator" "print").map PyDef.params)
        = some ["self", "filename", "ink_type"]
    ∧ ((findMethod talk_py "OCP-S2" "ReportGenerator" "print").map PyDef.params)
        = some ["self", "filename"] := by
  exact ⟨rfl, rfl, rfl, rfl, rfl⟩

/-- Claim C7, amended.  talk.py is an expanded version of solid.py whose
named additions (the Modem/DataChannel/Connection split, the Quadrilateral
generalization, the point history-rule example) appear only in talk.py,
and every snippet present in both files is identical in the two files
except the seven revised snippets listed in `revisedLabels`. -/
theorem claimC7_amended :
    (["Modem", "DataChannel", "Connection", "Quadrilateral", "Point",
      "ImmutablePoint", "MutablePoint"].all
      (fun n => (classNames talk_py).contains n
        && !((classNames solid_py).contains n))) = true
    ∧ ∀ l ∈ sharedLabels, revisedLabels.contains l = false →
        findSnippet solid_py l = findSnippet talk_py l := by
  refine ⟨rfl, ?_⟩
  decide

/-- Witness for C7 at the shared SRP problem-1 snippet. -/
theorem claimC7_witness :
    findSnippet solid_py "SRP-P1" = findSnippet talk_py "SRP-P1" :=
  claimC7_amended.2 "SRP-P1" (by decide) rfl

/-- Claim C8.  In the LSP solution version of talk.py, `Task.close` raises
on every call regardless of `can_close()`; when the guard is true it first
sets the status to `'CLOSED'` and raises afterwards, so the state is not
left unchanged on error (shown concretely on a fresh task with the base
`can_close`, which returns `True`). -/
theorem claimC8 (cc : Obj → Bool) (o : Obj) :
    (TaskSol_close cc o).2 = some "Cannot close Task"
    ∧ (TaskSol_close cc o).1
        = (if cc o then setAttr o "status" (PyVal.str "CLOSED") else o)
    ∧ getAttr (TaskSol_close cc o).1 "status"
        = (if cc o then PyVal.str "CLOSED" else getAttr o "status")
    ∧ Task_can_close o = true
    ∧ (getAttr (TaskSol_close Task_can_close []).1 "status"
        == getAttr ([] : Obj) "status") = false := by
  refine ⟨rfl, rfl, ?_, rfl, rfl⟩
  by_cases h : cc o <;> simp [TaskSol_close, h, getAttr_setAttr_same]

/-- Witness for C8 on a fresh task with the base-class guard. -/
theorem claimC8_witness :
    (TaskSol_close Task_can_close []).2 = some "Cannot close Task" :=
  (claimC8 Task_can_close []).1

/-- Claim C9.  In talk.py's LSP problem version, `Square.set_width`
assigns the width and then evaluates the bare name `set_height`, which is
unbound at talk.py's module level, so the call raises a NameError and the
height is left unchanged; symmetrically for `set_height`. -/
theorem claimC9 (o : Obj) (w h : PyVal) :
    (topLevelNames talk_py).contains "set_height" = false
    ∧ (topLevelNames talk_py).contains "set_width" = false
    ∧ getAttr (Square_set_width o w).1 "width" = w
    ∧ (Square_set_width o w).2 = some "NameError: name set_height is not defined"
    ∧ getAttr (Square_set_width o w).1 "height" = getAttr o "height"
    ∧ getAttr (Square_set_height o h).1 "height" = h
    ∧ (Square_set_height o h).2 = some "NameError: name set_width is not defined"
    ∧ getAttr (Square_set_height o h).1 "width" = getAttr o "width" :=
  ⟨rfl, rfl,
   getAttr_setAttr_same o "width" w, rfl,
   getAttr_setAttr_other o "width" "height" w (by decide),
   getAttr_setAttr_same o "height" h, rfl,
   getAttr_setAttr_other o "height" "width" h (by decide)⟩

/-- Witness for C9 on a concrete square object. -/
theorem claimC9_witness :
    getAttr (Square_set_width [("height", PyVal.int 3)] (PyVal.int 5)).1 "width"
      = PyVal.int 5
    ∧ (Square_set_width [("height", PyVal.int 3)] (PyVal.int 5)).2
        = some "NameError: name set_height is not defined"
    ∧ getAttr (Square_set_width [("height", PyVal.int 3)] (PyVal.int 5)).1 "height"
        = getAttr [("height", PyVal.int 3)] "height" :=
  ⟨(claimC9 [("height", PyVal.int 3)] (PyVal.int 5) (PyVal.int 2)).2.2.1,
   (claimC9 [("height", PyVal.int 3)] (PyVal.int 5) (PyVal.int 2)).2.2.2.1,
   (claimC9 [("height", PyVal.int 3)] (PyVal.int 5) (PyVal.int 2)).2.2.2.2.1⟩

/-- Claim C10.  In both `Button.detect` versions, the state-reading method
has a `pass` body and thus returns `None`, which is falsy, so `detect`
always invokes the attached client's `turn_off` and never `turn_on`. -/
theorem claimC10 (o : Obj) :
    Button_get_state o = PyVal.none
    ∧ Button_get_physical_state o = PyVal.none
    ∧ truthy PyVal.none = false
    ∧ Button_detect o = ClientCall.turnOff
    ∧ (Button_detect o == ClientCall.turnOn) = false
    ∧ ButtonProblem_detect o = ClientCall.turnOff
    ∧ (ButtonProblem_detect o == ClientCall.turnOn) = false :=
  ⟨rfl, rfl, rfl, rfl, rfl, rfl, rfl⟩

/-- Witness for C10 on a concrete button object. -/
theorem claimC10_witness :
    Button_detect [("lamp", PyVal.str "desk")] = ClientCall.turnOff
    ∧ ButtonProblem_detect [("lamp", PyVal.str "desk")] = ClientCall.turnOff :=
  ⟨(claimC10 [("lamp", PyVal.str "desk")]).2.2.2.1,
   (claimC10 [("lamp", PyVal.str "desk")]).2.2.2.2.2.1⟩

end Talks
